import Mathlib

/-!
Verification of the notebook repository HandsOnMLwithScikit-Learn-Keras-TensorFlow
against its natural-language specification.

The development shallowly embeds the code fragments that the claims are about:

- Chapter 04 (Training Models): the hand-rolled batch and stochastic gradient
  descent loops, the learning-rate schedule, and the Normal-Equation cell
  together with the numpy global random-number-generator state that
  np.random.seed(42) overwrites.
- The reinforcement-learning notebook (src/unnamed/part_003): the DQNAgent
  replay-target computation, the bounded replay memory (a deque with
  maxlen 2000), and the PGAgent discounted-return normalization.
- A corpus view of every code cell of every notebook, recording per cell the
  filesystem paths it creates, the datasets or weights it downloads, the model
  artifacts it saves, the parallel or multi-device execution it requests, and
  the number of exception handlers it contains.  Each record is transcribed
  from the corresponding cell of the source.
- A statement-level name-resolution model of src/unnamed/part_000, whose code
  cells reference the name input_dim that no cell defines.

All numeric code is embedded over the rationals: the claims under study are
about algorithm structure and well-definedness, not about floating-point
rounding.
-/

set_option maxRecDepth 65536

namespace Ch04

/-- Number of instances in the Chapter 04 dataset cell (m = 100 in the
notebook; the gradient-descent embedding keeps m as a parameter). -/
def mInstances : Nat := 100

/-- Source transcription of eta = 0.1, the fixed batch-gradient-descent
learning rate. -/
def eta : ℚ := 1 / 10

/-- Source transcription of n_iterations = 1000. -/
def n_iterations : Nat := 1000

/-- Source transcription of n_epochs = 50. -/
def n_epochs : Nat := 50

/-- Source transcription of t0 = 5 (learning-schedule numerator). -/
def t0 : ℚ := 5

/-- Source transcription of t1 = 50 (learning-schedule denominator shift). -/
def t1 : ℚ := 50

/-- Source transcription of learning_schedule(t) = t0 / (t + t1). -/
def learning_schedule (t : Nat) : ℚ := t0 / ((t : ℚ) + t1)

/-- X_b.dot(theta): the product of the design matrix X_b (rows indexed by
instances, two columns: bias and feature) with the parameter vector. -/
def matVec (m : Nat) (Xb : Fin m → Fin 2 → ℚ) (θ : Fin 2 → ℚ) : Fin m → ℚ :=
  fun i => ∑ k, Xb i k * θ k

/-- X_b.T.dot(v): the product of the transposed design matrix with a vector of
per-instance values. -/
def matTVec (m : Nat) (Xb : Fin m → Fin 2 → ℚ) (v : Fin m → ℚ) : Fin 2 → ℚ :=
  fun j => ∑ i, Xb i j * v i

/-- gradients = 2/m * X_b.T.dot(X_b.dot(theta) - y), transcribed from the
batch-gradient-descent cell. -/
def bgdGradients (m : Nat) (Xb : Fin m → Fin 2 → ℚ) (y : Fin m → ℚ)
    (θ : Fin 2 → ℚ) : Fin 2 → ℚ :=
  fun j => 2 / (m : ℚ) * matTVec m Xb (fun i => matVec m Xb θ i - y i) j

/-- One iteration of the batch loop: theta = theta - eta * gradients. -/
def bgdStep (m : Nat) (Xb : Fin m → Fin 2 → ℚ) (y : Fin m → ℚ)
    (θ : Fin 2 → ℚ) : Fin 2 → ℚ :=
  fun j => θ j - eta * bgdGradients m Xb y θ j

/-- The batch-gradient-descent cell: for iteration in range(n_iterations),
update theta in place, starting from the (randomly initialized) θ0. -/
def batchGradientDescent (m : Nat) (Xb : Fin m → Fin 2 → ℚ) (y : Fin m → ℚ)
    (θ0 : Fin 2 → ℚ) : Fin 2 → ℚ :=
  (List.range n_iterations).foldl (fun θ _iteration => bgdStep m Xb y θ) θ0

/-- gradients = 2 * xi.T.dot(xi.dot(theta_sgd) - yi) for a single instance
xi = X_b[random_index:random_index+1], transcribed from the SGD cell. -/
def sgdGradients (m : Nat) (Xb : Fin m → Fin 2 → ℚ) (y : Fin m → ℚ)
    (r : Fin m) (θ : Fin 2 → ℚ) : Fin 2 → ℚ :=
  fun j => 2 * Xb r j * (matVec m Xb θ r - y r)

/-- One inner SGD step at flattened step index t = epoch * m + i: draw the
random instance idx t, compute the single-instance gradient, and update with
the scheduled learning rate eta = learning_schedule(t). -/
def sgdStep (m : Nat) (Xb : Fin m → Fin 2 → ℚ) (y : Fin m → ℚ)
    (idx : Nat → Fin m) (t : Nat) (θ : Fin 2 → ℚ) : Fin 2 → ℚ :=
  fun j => θ j - learning_schedule t * sgdGradients m Xb y (idx t) θ j

/-- The stochastic-gradient-descent cell: for epoch in range(n_epochs), for i
in range(m), one sgdStep at index epoch * m + i.  The random draws of
np.random.randint(m) are supplied by the oracle idx. -/
def stochasticGradientDescent (m : Nat) (Xb : Fin m → Fin 2 → ℚ)
    (y : Fin m → ℚ) (idx : Nat → Fin m) (θ0 : Fin 2 → ℚ) : Fin 2 → ℚ :=
  (List.range n_epochs).foldl
    (fun θ epoch =>
      (List.range m).foldl (fun θ i => sgdStep m Xb y idx (epoch * m + i) θ) θ)
    θ0

/-- Abstract interface of the numpy global pseudo-random generator over an
arbitrary state type: np.random.seed builds a state from an integer seed, and
each scalar draw of np.random.rand or np.random.randn returns a value and the
successor state. -/
structure NumpyRng (σ : Type) where
  seedFn : Nat → σ
  rand : σ → ℚ × σ
  randn : σ → ℚ × σ

/-- Take n successive scalar draws with the given draw function. -/
def draws {σ : Type} (step : σ → ℚ × σ) : Nat → σ → List ℚ × σ
  | 0, s => ([], s)
  | n + 1, s =>
    let p := step s
    let q := draws step n p.2
    (p.1 :: q.1, q.2)

/-- The Chapter 04 data-generation cell, run against the generator rng with
prior global state s0: np.random.seed(42) overwrites s0, then
X = 2 * np.random.rand(m, 1) and y = 4 + 3 * X + np.random.randn(m, 1). -/
def ch04DataGen {σ : Type} (rng : NumpyRng σ) (s0 : σ) :
    (List ℚ × List ℚ) × σ :=
  let _ := s0
  let s1 := rng.seedFn 42
  let px := draws rng.rand mInstances s1
  let x := px.1.map (fun v => 2 * v)
  let pn := draws rng.randn mInstances px.2
  let y := List.zipWith (fun xv nv => 4 + 3 * xv + nv) x pn.1
  ((x, y), pn.2)

/-- The Normal Equation theta_best = inv(X_b.T.dot(X_b)).dot(X_b.T).dot(y)
for the single-feature design matrix X_b = [1, x], written with the closed
form of a 2 x 2 inverse; none models the LinAlgError that np.linalg.inv
raises on a singular matrix. -/
def normalEquation (x y : List ℚ) : Option (ℚ × ℚ) :=
  let n : ℚ := x.length
  let sx := x.sum
  let sxx := (x.map (fun v => v * v)).sum
  let sy := y.sum
  let sxy := (List.zipWith (fun a b => a * b) x y).sum
  let det := n * sxx - sx * sx
  if det = 0 then none
  else some ((sxx * sy - sx * sxy) / det, (n * sxy - sx * sy) / det)

/-- Running the notebook from the seed cell through the Normal-Equation cell:
generate the data after np.random.seed(42), then solve for theta_best. -/
def runThetaBest {σ : Type} (rng : NumpyRng σ) (s0 : σ) : Option (ℚ × ℚ) :=
  let d := ch04DataGen rng s0
  normalEquation d.1.1 d.1.2

/-- theta_best as a function of the generator alone: the same computation
started from the freshly seeded state, with no prior-state argument. -/
def thetaBestOfSeed {σ : Type} (rng : NumpyRng σ) : Option (ℚ × ℚ) :=
  let s1 := rng.seedFn 42
  let px := draws rng.rand mInstances s1
  let x := px.1.map (fun v => 2 * v)
  let pn := draws rng.randn mInstances px.2
  let y := List.zipWith (fun xv nv => 4 + 3 * xv + nv) x pn.1
  normalEquation x y

/-- Determinism of the Normal-Equation cell: whatever the generator
implementation and whatever global generator state two executions start from,
both executions compute the same theta_best, because np.random.seed(42) runs
first. -/
def NormalEquationDeterministic : Prop :=
  ∀ (σ : Type) (rng : NumpyRng σ) (s0 s1 : σ),
    runThetaBest rng s0 = runThetaBest rng s1

end Ch04

namespace RL

/-- A transition tuple (state, action, reward, next_state, done) as appended
by DQNAgent.remember. -/
structure Transition (σ : Type) where
  state : σ
  action : Nat
  reward : ℚ
  next_state : σ
  done : Bool

/-- DQNAgent.memory is collections.deque(maxlen=2000); remember appends the
new transition on the right, and a full deque discards its leftmost (oldest)
element. -/
def rememberMem {σ : Type} (mem : List (Transition σ)) (tr : Transition σ) :
    List (Transition σ) :=
  if mem.length < 2000 then mem ++ [tr] else mem.drop 1 ++ [tr]

/-- self.gamma = 0.95 of DQNAgent. -/
def dqnGamma : ℚ := 95 / 100

/-- np.amax over a Q-value row indexed by the (nonempty) action space. -/
def npAmax {n : Nat} (hn : 0 < n) (v : Fin n → ℚ) : ℚ :=
  Finset.univ.sup' ⟨⟨0, hn⟩, Finset.mem_univ _⟩ v

/-- The fitting target built by one DQNAgent.replay loop iteration for one
transition: target = self.model.predict(state), then the entry of the taken
action is overwritten with reward if done, and with
reward + gamma * np.amax(self.target_model.predict(next_state)) otherwise.
modelPred and targetPred are the two predicted Q-value rows. -/
def replayTarget {n : Nat} (hn : 0 < n) (modelPred targetPred : Fin n → ℚ)
    (action : Fin n) (reward : ℚ) (done : Bool) : Fin n → ℚ :=
  if done then Function.update modelPred action reward
  else Function.update modelPred action (reward + dqnGamma * npAmax hn targetPred)

/-- self.gamma = 0.95 of PGAgent. -/
def pgGamma : ℚ := 95 / 100

/-- PGAgent.train discounted returns: Gt = 0; for reward in
reversed(self.rewards): Gt = reward + gamma * Gt; insert Gt at the front.
The foldr carries the pair (current Gt, list built so far). -/
def discountedRewards (γ : ℚ) (rewards : List ℚ) : List ℚ :=
  (rewards.foldr
    (fun r acc => (r + γ * acc.1, (r + γ * acc.1) :: acc.2))
    ((0 : ℚ), ([] : List ℚ))).2

/-- np.mean of a list of rationals. -/
def npMean (l : List ℚ) : ℚ := l.sum / (l.length : ℚ)

/-- The square of np.std: the population variance
mean of (x - mean)^2.  np.std itself is its square root, so np.std is zero
exactly when this variance is zero. -/
def npVariance (l : List ℚ) : ℚ :=
  ((l.map (fun x => (x - npMean l) ^ 2)).sum) / (l.length : ℚ)

/-- The sample weights computed by PGAgent.train:
(discounted_rewards - mean) / np.std(discounted_rewards), with no guard on
the divisor.  A zero divisor makes every weight a non-finite float, modelled
here as none; otherwise the centered returns are returned (the true weights
differ from them by the positive scalar 1/std, which is irrelevant to the
claim about well-definedness). -/
def pgSampleWeights (rewards : List ℚ) : Option (List ℚ) :=
  let dr := discountedRewards pgGamma rewards
  if npVariance dr = 0 then none
  else some (dr.map (fun x => x - npMean dr))

end RL

namespace Corpus

/-- One code cell of one notebook, as observed for the frame, concurrency and
error-handling claims.  notebook is the source path, idx the position among
the code cells of that notebook (markdown cells skipped).  fsWrites lists the
filesystem paths the cell creates, downloads the remote datasets or weights
it fetches, modelSaves the model artifacts it persists, parallelReqs the
parallel, prefetching or multi-device execution requests appearing in it, and
handlers counts its exception handlers.  Each record is transcribed from the
corresponding cell of the source file. -/
structure CodeCell where
  notebook : String
  idx : Nat
  fsWrites : List String
  downloads : List String
  modelSaves : List String
  parallelReqs : List String
  handlers : Nat
deriving DecidableEq

/-- A cell with no filesystem, network, model-saving, parallelism or
exception-handling construct. -/
def cleanCell (nb : String) (i : Nat) : CodeCell :=
  ⟨nb, i, [], [], [], [], 0⟩

/-- n consecutive clean cells of one notebook. -/
def cleanCells (nb : String) (n : Nat) : List CodeCell :=
  (List.range n).map (cleanCell nb)

def nb01 : String :=
  "Part1 Fundamental of Machine Learning/Chapter 01/01 Machine Learning Landscape.ipynb"

def nb02 : String :=
  "Part1 Fundamental of Machine Learning/Chapter 02/02 End to End Machine Learning Project.ipynb"

def nb03 : String :=
  "Part1 Fundamental of Machine Learning/Chapter 03/03 Classification.ipynb"

def nb04 : String :=
  "Part1 Fundamental of Machine Learning/Chapter 04/04 Training Models.ipynb"

def nb05 : String :=
  "Part1 Fundamental of Machine Learning/Chapter 05/05 Support Vector Machines.ipynb"

def nb06 : String :=
  "Part1 Fundamental of Machine Learning/Chapter 06/06 Decision Tree.ipynb"

def nb07 : String :=
  "Part1 Fundamental of Machine Learning/Chapter 07/07 Ensemble Learning and Random Forests.ipynb"

def nb08 : String :=
  "Part1 Fundamental of Machine Learning/Chapter 08/08 Dimensionality Reduction.ipynb"

def nb13 : String :=
  "Part2 Neural Network and Deep Learning/Chapter 13/13  Loading and Preprocessing Data.ipynb"

def nb15 : String :=
  "Part2 Neural Network and Deep Learning/Chapter 15/15 Processing Sequences Using.ipynb"

def nb16 : String :=
  "Part2 Neural Network and Deep Learning/Chapter 16/16 Natural Language Processing RNNs and Attention.ipynb"

def nb17 : String :=
  "Part2 Neural Network and Deep Learning/Chapter 17/17 Representation Learning and Generative Learning Using Autoencoders and GANs..ipynb"

def nb19 : String :=
  "Part2 Neural Network and Deep Learning/Chapter 19/19 Training and Deploying TensorFlow Models at Scale.ipynb"

def p000 : String := "unnamed/part_000"

def p001 : String := "unnamed/part_001"

def p002 : String := "unnamed/part_002"

def p003 : String := "unnamed/part_003"

def p004 : String := "unnamed/part_004"

/-- Chapter 02, code cell 1: fetch_housing_data and load_housing_data;
os.makedirs the dataset directory, urlretrieve housing.tgz, extract
housing.csv. -/
def ch02FetchCell : CodeCell :=
  { notebook := nb02, idx := 1
    fsWrites := ["datasets/housing", "datasets/housing/housing.tgz",
      "datasets/housing/housing.csv"]
    downloads :=
      ["https://raw.githubusercontent.com/ageron/handson-ml2/master/datasets/housing/housing.tgz"]
    modelSaves := [], parallelReqs := [], handlers := 0 }

/-- Chapter 03, code cell 0: mnist = fetch_openml(mnist_784, version=1). -/
def ch03MnistCell : CodeCell :=
  { notebook := nb03, idx := 0
    fsWrites := [], downloads := ["fetch_openml mnist_784"]
    modelSaves := [], parallelReqs := [], handlers := 0 }

/-- Chapter 07, code cell 2: BaggingClassifier with n_jobs=-1. -/
def ch07BagCell : CodeCell :=
  { notebook := nb07, idx := 2
    fsWrites := [], downloads := [], modelSaves := []
    parallelReqs := ["BaggingClassifier n_jobs=-1"], handlers := 0 }

/-- Chapter 07, code cell 3: out-of-bag BaggingClassifier with n_jobs=-1. -/
def ch07BagOobCell : CodeCell :=
  { notebook := nb07, idx := 3
    fsWrites := [], downloads := [], modelSaves := []
    parallelReqs := ["BaggingClassifier n_jobs=-1"], handlers := 0 }

/-- Chapter 07, code cell 4: RandomForestClassifier(n_estimators=500,
max_leaf_nodes=16, n_jobs=-1, random_state=42). -/
def ch07RfCell : CodeCell :=
  { notebook := nb07, idx := 4
    fsWrites := [], downloads := [], modelSaves := []
    parallelReqs := ["RandomForestClassifier n_jobs=-1"], handlers := 0 }

/-- Chapter 07, code cell 5: ExtraTreesClassifier with n_jobs=-1. -/
def ch07EtCell : CodeCell :=
  { notebook := nb07, idx := 5
    fsWrites := [], downloads := [], modelSaves := []
    parallelReqs := ["ExtraTreesClassifier n_jobs=-1"], handlers := 0 }

/-- Chapter 13, code cell 1: os.makedirs data, write data/file_0.txt to
data/file_2.txt, then interleave with num_parallel_calls. -/
def ch13WriteTextCell : CodeCell :=
  { notebook := nb13, idx := 1
    fsWrites := ["data", "data/file_0.txt", "data/file_1.txt", "data/file_2.txt"]
    downloads := [], modelSaves := []
    parallelReqs := ["interleave num_parallel_calls=tf.data.AUTOTUNE"]
    handlers := 0 }

/-- Chapter 13, code cell 3: dataset.map(preprocess_image,
num_parallel_calls=tf.data.AUTOTUNE). -/
def ch13MapParallelCell : CodeCell :=
  { notebook := nb13, idx := 3
    fsWrites := [], downloads := [], modelSaves := []
    parallelReqs := ["map num_parallel_calls=tf.data.AUTOTUNE"], handlers := 0 }

/-- Chapter 13, code cell 4: efficient pipeline with parallel interleave and
prefetch. -/
def ch13PipelineCell : CodeCell :=
  { notebook := nb13, idx := 4
    fsWrites := [], downloads := [], modelSaves := []
    parallelReqs := ["interleave num_parallel_calls=tf.data.AUTOTUNE",
      "prefetch tf.data.AUTOTUNE"]
    handlers := 0 }

/-- Chapter 13, code cell 5: tf.io.TFRecordWriter(data/sample.tfrecord). -/
def ch13TfrecordCell : CodeCell :=
  { notebook := nb13, idx := 5
    fsWrites := ["data/sample.tfrecord"]
    downloads := [], modelSaves := [], parallelReqs := [], handlers := 0 }

/-- Chapter 19, code cell 0: tf.saved_model.save(model, my_mnist_model/0001). -/
def ch19SaveModelCell : CodeCell :=
  { notebook := nb19, idx := 0
    fsWrites := ["my_mnist_model/0001"]
    downloads := [], modelSaves := ["my_mnist_model/0001"]
    parallelReqs := [], handlers := 0 }

/-- Chapter 19, code cell 3: write converted_model.tflite. -/
def ch19TfliteCell : CodeCell :=
  { notebook := nb19, idx := 3
    fsWrites := ["converted_model.tflite"]
    downloads := [], modelSaves := [], parallelReqs := [], handlers := 0 }

/-- Chapter 19, code cell 5: strategy = tf.distribute.MirroredStrategy(). -/
def ch19MirroredCell : CodeCell :=
  { notebook := nb19, idx := 5
    fsWrites := [], downloads := [], modelSaves := []
    parallelReqs := ["tf.distribute.MirroredStrategy"], handlers := 0 }

/-- part_002, code cell 2: ResNet50(weights=imagenet) fetches the pretrained
weights. -/
def p002ResnetCell : CodeCell :=
  { notebook := p002, idx := 2
    fsWrites := [], downloads := ["keras ResNet50 imagenet weights"]
    modelSaves := [], parallelReqs := [], handlers := 0 }

/-- part_002, code cell 3: tfds.load(tf_flowers), ResNet50(weights=imagenet),
and a prefetch(1) pipeline. -/
def p002FlowersCell : CodeCell :=
  { notebook := p002, idx := 3
    fsWrites := []
    downloads := ["tfds.load tf_flowers", "keras ResNet50 imagenet weights"]
    modelSaves := [], parallelReqs := ["prefetch 1"], handlers := 0 }

/-- part_003, code cell 5: train_agent builds
replay_buffer.as_dataset(num_parallel_calls=3, ...).prefetch(3). -/
def p003TrainAgentCell : CodeCell :=
  { notebook := p003, idx := 5
    fsWrites := [], downloads := [], modelSaves := []
    parallelReqs := ["as_dataset num_parallel_calls=3", "prefetch 3"]
    handlers := 0 }

/-- The code cells of every source file.  Cell counts per file: ch01 1,
ch02 11, ch03 6, ch04 10, ch05 4, ch06 3, ch07 8, ch08 4, ch13 8, ch15 6,
ch16 6, ch17 4, ch19 6, part_000 5, part_001 7 (its two embedded notebook
documents contribute 2 and 5 code cells), part_002 4, part_003 6,
part_004 5. -/
def corpus : List CodeCell :=
  cleanCells nb01 1 ++
  (cleanCell nb02 0 :: ch02FetchCell ::
    (List.range 9).map (fun i => cleanCell nb02 (i + 2))) ++
  (ch03MnistCell :: (List.range 5).map (fun i => cleanCell nb03 (i + 1))) ++
  cleanCells nb04 10 ++
  cleanCells nb05 4 ++
  cleanCells nb06 3 ++
  [cleanCell nb07 0, cleanCell nb07 1, ch07BagCell, ch07BagOobCell,
    ch07RfCell, ch07EtCell, cleanCell nb07 6, cleanCell nb07 7] ++
  cleanCells nb08 4 ++
  [cleanCell nb13 0, ch13WriteTextCell, cleanCell nb13 2, ch13MapParallelCell,
    ch13PipelineCell, ch13TfrecordCell, cleanCell nb13 6, cleanCell nb13 7] ++
  cleanCells nb15 6 ++
  cleanCells nb16 6 ++
  cleanCells nb17 4 ++
  [ch19SaveModelCell, cleanCell nb19 1, cleanCell nb19 2, ch19TfliteCell,
    cleanCell nb19 4, ch19MirroredCell] ++
  cleanCells p000 5 ++
  cleanCells p001 7 ++
  [cleanCell p002 0, cleanCell p002 1, p002ResnetCell, p002FlowersCell] ++
  ((List.range 5).map (cleanCell p003) ++ [p003TrainAgentCell]) ++
  cleanCells p004 5

/-- The cells that write to disk, download data, or save a model. -/
def persistentCells : List (String × Nat) :=
  [(nb02, 1), (nb03, 0), (nb13, 1), (nb13, 5), (nb19, 0), (nb19, 3),
    (p002, 2), (p002, 3)]

/-- The cells that request parallel jobs, parallel calls, prefetching, or
multi-device execution. -/
def parallelCells : List (String × Nat) :=
  [(nb07, 2), (nb07, 3), (nb07, 4), (nb07, 5), (nb13, 1), (nb13, 3),
    (nb13, 4), (nb19, 5), (p002, 3), (p003, 5)]

/-- The keyword arguments of the RandomForestClassifier call in Chapter 07. -/
structure RandomForestParams where
  n_estimators : Nat
  max_leaf_nodes : Nat
  n_jobs : Int
  random_state : Nat
deriving DecidableEq

/-- rf_clf = RandomForestClassifier(n_estimators=500, max_leaf_nodes=16,
n_jobs=-1, random_state=42). -/
def rf_clf : RandomForestParams :=
  { n_estimators := 500, max_leaf_nodes := 16, n_jobs := -1, random_state := 42 }

/-- In scikit-learn, n_jobs = -1 requests parallel training jobs on all
processors. -/
def requestsAllCores (p : RandomForestParams) : Prop := p.n_jobs = -1

end Corpus

namespace FS

/-- Path of the downloaded archive written by fetch_housing_data. -/
def housingTgz : String := "datasets/housing/housing.tgz"

/-- Path of the extracted csv read by load_housing_data. -/
def housingCsv : String := "datasets/housing/housing.csv"

/-- The Chapter 02 fetch_housing_data function over a filesystem modelled as
the list of existing paths: urlretrieve writes housing.tgz (raising URLError
when the network fails), and extractall writes housing.csv. -/
def fetch_housing_data (netOk : Bool) (fs : List String) :
    Except String (List String) :=
  if netOk then Except.ok (housingCsv :: housingTgz :: fs)
  else Except.error "URLError"

/-- The Chapter 02 load_housing_data function: pd.read_csv raises
FileNotFoundError when the csv is absent. -/
def load_housing_data (fs : List String) : Except String Unit :=
  if housingCsv ∈ fs then Except.ok () else Except.error "FileNotFoundError"

/-- The top-level statements of the Chapter 02 cell: fetch_housing_data()
then load_housing_data().  With no handler in the cell, any error propagates
unchanged. -/
def fetchThenLoad (netOk : Bool) (fs : List String) : Except String Unit := do
  let fs2 ← fetch_housing_data netOk fs
  load_housing_data fs2

/-- The Chapter 13 file-creating loop: os.makedirs(data), then write
data/file_i.txt for i in range(3). -/
def createTextFiles (fs : List String) : List String :=
  (List.range 3).foldl
    (fun acc i => ("data/file_" ++ toString i ++ ".txt") :: acc)
    ("data" :: fs)

/-- The Chapter 13 TFRecord cell writes data/sample.tfrecord. -/
def writeTfrecordFile (fs : List String) : List String :=
  "data/sample.tfrecord" :: fs

/-- The Chapter 19 save cell writes a SavedModel under
os.path.join(my_mnist_model, 0001). -/
def saveMnistModel (fs : List String) : List String :=
  "my_mnist_model/0001" :: fs

/-- The Chapter 19 TFLite cell writes converted_model.tflite. -/
def writeTfliteModel (fs : List String) : List String :=
  "converted_model.tflite" :: fs

end FS

namespace NB

/-- One top-level Python statement of a code cell: the names it reads during
execution (in evaluation order) and the names it binds. -/
structure PyStatement where
  uses : List String
  defines : List String

/-- A code cell is its list of top-level statements. -/
abbrev PyCell := List PyStatement

/-- Execute one statement in an environment of defined names: the first name
read that is not defined raises NameError with that name; otherwise the
bound names are added. -/
def runStatement (env : List String) (s : PyStatement) :
    Except String (List String) :=
  match s.uses.find? (fun u => !(env.contains u)) with
  | some u => Except.error u
  | none => Except.ok (env ++ s.defines)

/-- Execute a cell statement by statement. -/
def runCell (env : List String) (c : PyCell) : Except String (List String) :=
  c.foldlM runStatement env

/-- Execute a notebook top to bottom from the empty environment; the first
NameError aborts the run. -/
def runNotebook (cells : List PyCell) : Except String (List String) :=
  cells.foldlM runCell []

/-- The code cells of src/unnamed/part_000, statement by statement.
Cell 0: from tensorflow import keras; model = keras.Sequential([... Dense
(input_shape=(input_dim,)) ...]); model.compile(...).
Cell 1: model = keras.Sequential([... input_shape=(input_dim,) ...]);
model.compile(...).
Cell 2: model.compile(...).
Cell 3: model = keras.Sequential([... Dropout ... input_shape=(input_dim,)
...]); model.compile(...).
Cell 4: from tensorflow.keras import regularizers; model = keras.Sequential
([... regularizers.l2(0.01) ... input_shape=(input_dim,) ...]);
model.compile(...). -/
def part000 : List PyCell :=
  [ [⟨[], ["keras"]⟩, ⟨["keras", "input_dim"], ["model"]⟩, ⟨["model"], []⟩],
    [⟨["keras", "input_dim"], ["model"]⟩, ⟨["model"], []⟩],
    [⟨["model"], []⟩],
    [⟨["keras", "input_dim"], ["model"]⟩, ⟨["model"], []⟩],
    [⟨[], ["regularizers"]⟩, ⟨["keras", "regularizers", "input_dim"], ["model"]⟩,
      ⟨["model"], []⟩] ]

end NB

-- ## Theorems

/-- Helper: a foldl over List.range n with a body that ignores the index is
the n-th iterate of the body. -/
theorem foldl_range_const {α : Type} (f : α → α) :
    ∀ (n : Nat) (a : α), (List.range n).foldl (fun x _ => f x) a = f^[n] a := by
  intro n
  induction n with
  | zero => intro a; rfl
  | succ k ih =>
    intro a
    rw [List.range_succ, List.foldl_append, ih, Function.iterate_succ_apply']
    rfl

/-- C5: the Chapter 04 batch gradient descent performs exactly 1000 iterations
of theta := theta - 0.1 * (2/m) * X_b.T (X_b theta - y), and the stochastic
variant performs 50 epochs of m inner steps, each updating
theta_sgd := theta_sgd - (5/(t+50)) * 2 * xi.T (xi theta_sgd - yi) on the
randomly chosen instance xi = row (idx t) at flattened step t = epoch*m+i:
both loops are unmodified transcriptions of the textbook update formulas. -/
theorem c5_gradient_descent_is_textbook (m : Nat) (Xb : Fin m → Fin 2 → ℚ)
    (y : Fin m → ℚ) (idx : Nat → Fin m) (θ0 : Fin 2 → ℚ) :
    Ch04.batchGradientDescent m Xb y θ0 =
      (fun θ : Fin 2 → ℚ => fun j =>
        θ j - 1 / 10 * (2 / (m : ℚ) * ∑ i, Xb i j * ((∑ k, Xb i k * θ k) - y i)))^[1000]
        θ0
      ∧
    Ch04.stochasticGradientDescent m Xb y idx θ0 =
      (List.range 50).foldl
        (fun θ epoch =>
          (List.range m).foldl
            (fun θ i => fun j =>
              θ j - 5 / (((epoch * m + i : Nat) : ℚ) + 50) *
                (2 * Xb (idx (epoch * m + i)) j *
                  ((∑ k, Xb (idx (epoch * m + i)) k * θ k) - y (idx (epoch * m + i)))))
            θ)
        θ0 := by
  constructor
  · exact foldl_range_const (Ch04.bgdStep m Xb y) 1000 θ0
  · rfl

/-- C10: the learning schedule 5/(t+50) is strictly positive everywhere and
strictly decreasing, so every SGD step uses a smaller learning rate than every
earlier step. -/
theorem c10_learning_schedule_monotone :
    (∀ t : Nat, 0 < Ch04.learning_schedule t) ∧
    (∀ s t : Nat, s < t → Ch04.learning_schedule t < Ch04.learning_schedule s) := by
  constructor
  · intro t
    unfold Ch04.learning_schedule Ch04.t0 Ch04.t1
    positivity
  · intro s t hst
    unfold Ch04.learning_schedule Ch04.t0 Ch04.t1
    have h5 : (0 : ℚ) < 5 := by norm_num
    have hs : (0 : ℚ) < (s : ℚ) + 50 := by positivity
    have hlt : (s : ℚ) + 50 < (t : ℚ) + 50 := by
      have : (s : ℚ) < (t : ℚ) := by exact_mod_cast hst
      linarith
    exact div_lt_div_of_pos_left h5 hs hlt

/-- C10 witness: the schedule is positive at 0 and smaller at step 1 than at
step 0. -/
theorem c10_witness :
    (0 < 1) ∧ 0 < Ch04.learning_schedule 0 ∧
      Ch04.learning_schedule 1 < Ch04.learning_schedule 0 :=
  ⟨by decide, c10_learning_schedule_monotone.1 0,
    c10_learning_schedule_monotone.2 0 1 (by decide)⟩

/-- C7 counterexample: the claim says no code cell guarantees that two
executions produce equal results, but the Chapter 04 Normal-Equation cell
does: np.random.seed(42) overwrites the global generator state, so any two
executions, from any two prior states of any generator implementation,
compute the same theta_best. -/
theorem c7_counterexample : Ch04.NormalEquationDeterministic :=
  fun _ _ _ _ => rfl

/-- C7 amended: computations downstream of np.random.seed(42) in Chapter 04
are deterministic; theta_best depends only on the generator implementation
applied to seed 42, not on the prior global state. -/
theorem c7_seeded_theta_best_deterministic {σ : Type} (rng : Ch04.NumpyRng σ)
    (s0 : σ) : Ch04.runThetaBest rng s0 = Ch04.thetaBestOfSeed rng :=
  rfl

/-- C6: per transition of the minibatch, the replay fitting target of the
taken action is reward when done and reward + gamma * (max of the target
network row) otherwise; every other action keeps the online model prediction;
and npAmax is indeed the maximum of the target network row. -/
theorem c6_dqn_replay_target (n : Nat) (hn : 0 < n)
    (modelPred targetPred : Fin n → ℚ) (action : Fin n) (reward : ℚ)
    (done : Bool) :
    RL.replayTarget hn modelPred targetPred action reward done action =
        (if done then reward else reward + RL.dqnGamma * RL.npAmax hn targetPred)
      ∧ (∀ b : Fin n, b ≠ action →
          RL.replayTarget hn modelPred targetPred action reward done b = modelPred b)
      ∧ (∀ b : Fin n, targetPred b ≤ RL.npAmax hn targetPred)
      ∧ (∃ b : Fin n, RL.npAmax hn targetPred = targetPred b) := by
  refine ⟨?_, ?_, ?_, ?_⟩
  · cases done <;> simp [RL.replayTarget]
  · intro b hb
    cases done <;> simp [RL.replayTarget, Function.update_noteq hb]
  · intro b
    exact Finset.le_sup' targetPred (Finset.mem_univ b)
  · obtain ⟨b, _, h⟩ :=
      Finset.exists_mem_eq_sup' (⟨⟨0, hn⟩, Finset.mem_univ _⟩ :
        (Finset.univ : Finset (Fin n)).Nonempty) targetPred
    exact ⟨b, h⟩

/-- C6 witness: a two-action instance, with the taken action 0, reward 5, a
non-terminal transition, and target-network row (3, 7). -/
theorem c6_witness :
    (0 < 2) ∧
      RL.replayTarget (Nat.succ_pos 1) ![1, 2] ![3, 7] 0 5 false 0 =
        (if false then (5 : ℚ)
         else 5 + RL.dqnGamma * RL.npAmax (Nat.succ_pos 1) ![3, 7]) ∧
      ((1 : Fin 2) ≠ 0) ∧
      RL.replayTarget (Nat.succ_pos 1) ![1, 2] ![3, 7] 0 5 false 1 = ![1, 2] 1 :=
  ⟨Nat.succ_pos 1,
    (c6_dqn_replay_target 2 (Nat.succ_pos 1) ![1, 2] ![3, 7] 0 5 false).1,
    by decide,
    (c6_dqn_replay_target 2 (Nat.succ_pos 1) ![1, 2] ![3, 7] 0 5 false).2.1 1
      (by decide)⟩

/-- Helper: one remember call keeps the memory within the 2000 bound. -/
theorem rememberMem_length_le {σ : Type} (mem : List (RL.Transition σ))
    (tr : RL.Transition σ) (h : mem.length ≤ 2000) :
    (RL.rememberMem mem tr).length ≤ 2000 := by
  by_cases h1 : mem.length < 2000
  · rw [RL.rememberMem, if_pos h1]
    simp only [List.length_append, List.length_singleton]
    omega
  · rw [RL.rememberMem, if_neg h1]
    simp only [List.length_append, List.length_drop, List.length_singleton]
    omega

/-- Helper: any sequence of remember calls keeps the memory within 2000. -/
theorem foldl_rememberMem_le {σ : Type} :
    ∀ (ts : List (RL.Transition σ)) (mem : List (RL.Transition σ)),
      mem.length ≤ 2000 → (ts.foldl RL.rememberMem mem).length ≤ 2000 := by
  intro ts
  induction ts with
  | nil => intro mem h; simpa using h
  | cons t ts ih =>
    intro mem h
    exact ih _ (rememberMem_length_le mem t h)

/-- C8: starting from the empty deque, any sequence of DQNAgent.remember
calls leaves at most 2000 stored transitions, and a remember call on a full
memory discards exactly the oldest transition while appending the new one,
leaving the size at 2000. -/
theorem c8_bounded_replay_memory (σ : Type) (ts : List (RL.Transition σ))
    (mem : List (RL.Transition σ)) (tr : RL.Transition σ) :
    (ts.foldl RL.rememberMem []).length ≤ 2000 ∧
      (mem.length = 2000 →
        RL.rememberMem mem tr = mem.drop 1 ++ [tr] ∧
          (RL.rememberMem mem tr).length = 2000) := by
  constructor
  · exact foldl_rememberMem_le ts [] (by simp)
  · intro h2000
    constructor
    · rw [RL.rememberMem, if_neg (by omega)]
    · rw [RL.rememberMem, if_neg (by omega)]
      simp only [List.length_append, List.length_drop, List.length_singleton, h2000]

/-- A concrete transition used by the C8 witness. -/
def tr0 : RL.Transition Nat := ⟨0, 0, 0, 0, false⟩

/-- C8 witness: a full memory of 2000 copies of a concrete transition. -/
theorem c8_witness :
    (List.replicate 2000 tr0).length = 2000 ∧
      RL.rememberMem (List.replicate 2000 tr0) tr0 =
        (List.replicate 2000 tr0).drop 1 ++ [tr0] ∧
      (RL.rememberMem (List.replicate 2000 tr0) tr0).length = 2000 :=
  ⟨by rw [List.length_replicate],
    ((c8_bounded_replay_memory Nat [] (List.replicate 2000 tr0) tr0).2
      (by rw [List.length_replicate])).1,
    ((c8_bounded_replay_memory Nat [] (List.replicate 2000 tr0) tr0).2
      (by rw [List.length_replicate])).2⟩

/-- Helper: a sum of squared deviations vanishes exactly when every element
equals the reference point. -/
theorem sum_sq_zero_iff (c : ℚ) :
    ∀ l : List ℚ, ((l.map (fun x => (x - c) ^ 2)).sum = 0 ↔ ∀ x ∈ l, x = c) := by
  intro l
  induction l with
  | nil => simp
  | cons a t ih =>
    simp only [List.map_cons, List.sum_cons, List.mem_cons]
    constructor
    · intro h
      have ha : (0 : ℚ) ≤ (a - c) ^ 2 := sq_nonneg _
      have ht : (0 : ℚ) ≤ (t.map (fun x => (x - c) ^ 2)).sum := by
        apply List.sum_nonneg
        intro x hx
        obtain ⟨b, _, rfl⟩ := List.mem_map.mp hx
        exact sq_nonneg _
      have h1 : (a - c) ^ 2 = 0 := by linarith
      have h2 : (t.map (fun x => (x - c) ^ 2)).sum = 0 := by linarith
      refine fun x hx => ?_
      rcases hx with rfl | hx
      · exact sub_eq_zero.mp (pow_eq_zero_iff (n := 2) (by norm_num) |>.mp h1)
      · exact ih.mp h2 x hx
    · intro h
      have ha : a = c := h a (Or.inl rfl)
      have ht : (t.map (fun x => (x - c) ^ 2)).sum = 0 :=
        ih.mpr fun x hx => h x (Or.inr hx)
      rw [ha, ht, sub_self]
      ring

/-- Helper: the sum of a constant list. -/
theorem sum_of_all_eq (a : ℚ) :
    ∀ l : List ℚ, (∀ x ∈ l, x = a) → l.sum = a * l.length := by
  intro l
  induction l with
  | nil => simp
  | cons b t ih =>
    intro h
    have hb : b = a := h b (List.mem_cons_self b t)
    have ht := ih fun x hx => h x (List.mem_cons_of_mem b hx)
    simp only [List.sum_cons, List.length_cons, hb, ht]
    push_cast
    ring

/-- Helper: in a nonempty list whose elements are pairwise equal, every
element equals the mean. -/
theorem all_eq_mean (l : List ℚ) (hne : l ≠ [])
    (hall : ∀ x ∈ l, ∀ y ∈ l, x = y) : ∀ x ∈ l, x = RL.npMean l := by
  intro x hx
  have hlen : (l.length : ℚ) ≠ 0 := by
    exact_mod_cast (List.length_pos.mpr hne).ne'
  have hs : l.sum = x * l.length :=
    sum_of_all_eq x l fun z hz => hall z hz x hx
  rw [RL.npMean, hs, mul_div_cancel_right₀ _ hlen]

/-- Helper: the variance of a nonempty list vanishes exactly when every
element equals the mean. -/
theorem variance_zero_iff (l : List ℚ) (hne : l ≠ []) :
    RL.npVariance l = 0 ↔ ∀ x ∈ l, x = RL.npMean l := by
  have hlen : (l.length : ℚ) ≠ 0 := by
    exact_mod_cast (List.length_pos.mpr hne).ne'
  rw [RL.npVariance, div_eq_zero_iff]
  constructor
  · intro h
    rcases h with h | h
    · exact (sum_sq_zero_iff (RL.npMean l) l).mp h
    · exact absurd h hlen
  · intro h
    exact Or.inl ((sum_sq_zero_iff (RL.npMean l) l).mpr h)

/-- Helper: the discounted-return list has one entry per stored reward. -/
theorem discountedRewards_length (γ : ℚ) :
    ∀ rewards : List ℚ, (RL.discountedRewards γ rewards).length = rewards.length := by
  intro rewards
  induction rewards with
  | nil => rfl
  | cons r t ih =>
    simp only [RL.discountedRewards, List.foldr_cons, List.length_cons] at *
    simpa using ih

/-- C9: PGAgent.train normalizes by np.std with no guard: whenever the
discounted returns are all equal the variance (hence the std divisor) is zero
and the sample weights are undefined (none); in particular a single stored
transition always yields none; and whenever the weights are defined, at least
two discounted returns are distinct. -/
theorem c9_pg_normalization_guard (rewards : List ℚ) :
    (rewards ≠ [] →
        (∀ x ∈ RL.discountedRewards RL.pgGamma rewards,
          ∀ y ∈ RL.discountedRewards RL.pgGamma rewards, x = y) →
        RL.pgSampleWeights rewards = none) ∧
      (∀ r : ℚ, RL.pgSampleWeights [r] = none) ∧
      (RL.pgSampleWeights rewards ≠ none →
        ∃ x ∈ RL.discountedRewards RL.pgGamma rewards,
          ∃ y ∈ RL.discountedRewards RL.pgGamma rewards, x ≠ y) := by
  have key : ∀ rs : List ℚ, rs ≠ [] →
      (∀ x ∈ RL.discountedRewards RL.pgGamma rs,
        ∀ y ∈ RL.discountedRewards RL.pgGamma rs, x = y) →
      RL.pgSampleWeights rs = none := by
    intro rs hne hall
    have hdrne : RL.discountedRewards RL.pgGamma rs ≠ [] := by
      intro h
      apply hne
      have := discountedRewards_length RL.pgGamma rs
      rw [h] at this
      exact List.length_eq_zero.mp this.symm
    have hv : RL.npVariance (RL.discountedRewards RL.pgGamma rs) = 0 :=
      (variance_zero_iff _ hdrne).mpr (all_eq_mean _ hdrne hall)
    show (if RL.npVariance (RL.discountedRewards RL.pgGamma rs) = 0 then none
      else some ((RL.discountedRewards RL.pgGamma rs).map
        (fun x => x - RL.npMean (RL.discountedRewards RL.pgGamma rs)))) = none
    rw [if_pos hv]
  refine ⟨key rewards, ?_, ?_⟩
  · intro r
    apply key [r] (by simp)
    have h1 : (RL.discountedRewards RL.pgGamma [r]).length = 1 :=
      discountedRewards_length RL.pgGamma [r]
    obtain ⟨a, ha⟩ := List.length_eq_one.mp h1
    rw [ha]
    intro x hx y hy
    rw [List.mem_singleton.mp hx, List.mem_singleton.mp hy]
  · intro hsome
    by_contra hcon
    push_neg at hcon
    rcases eq_or_ne rewards [] with rfl | hne
    · have hv0 : RL.npVariance (RL.discountedRewards RL.pgGamma []) = 0 := by
        show RL.npVariance [] = 0
        simp [RL.npVariance]
      have hnil : RL.pgSampleWeights [] = none := by
        show (if RL.npVariance (RL.discountedRewards RL.pgGamma []) = 0 then none
          else some ((RL.discountedRewards RL.pgGamma []).map
            (fun x => x - RL.npMean (RL.discountedRewards RL.pgGamma [])))) = none
        rw [if_pos hv0]
      exact hsome hnil
    · exact hsome (key rewards hne hcon)

/-- C9 witness: a single stored transition with reward 5 yields undefined
weights, while the reward list (0, 1) yields defined weights and two distinct
discounted returns. -/
theorem c9_witness :
    (([5] : List ℚ) ≠ []) ∧ RL.pgSampleWeights [5] = none ∧
      (RL.pgSampleWeights [0, 1] ≠ none) ∧
      (∃ x ∈ RL.discountedRewards RL.pgGamma [0, 1],
        ∃ y ∈ RL.discountedRewards RL.pgGamma [0, 1], x ≠ y) := by
  have hdr : RL.discountedRewards RL.pgGamma [0, 1] = [19 / 20, 1] := by
    norm_num [RL.discountedRewards, RL.pgGamma]
  have hv : RL.npVariance (RL.discountedRewards RL.pgGamma [0, 1]) = 1 / 1600 := by
    rw [hdr]
    norm_num [RL.npVariance, RL.npMean]
  have hne2 : RL.pgSampleWeights [0, 1] ≠ none := by
    show (if RL.npVariance (RL.discountedRewards RL.pgGamma [0, 1]) = 0 then none
      else some ((RL.discountedRewards RL.pgGamma [0, 1]).map
        (fun x => x - RL.npMean (RL.discountedRewards RL.pgGamma [0, 1])))) ≠ none
    rw [if_neg (by rw [hv]; norm_num)]
    simp
  exact ⟨by decide, (c9_pg_normalization_guard [5]).2.1 5, hne2,
    (c9_pg_normalization_guard [0, 1]).2.2 hne2⟩

/-- C1: the spec says every notebook executes top to bottom with every
referenced name defined by an earlier cell or import, but running the code
cells of src/unnamed/part_000 in order raises NameError on input_dim in the
first code cell, and no cell of that notebook defines input_dim. -/
theorem c1_part000_raises_nameerror :
    NB.runNotebook NB.part000 = Except.error "input_dim" ∧
      (NB.part000.all fun c =>
        c.all fun s => !(s.defines.contains "input_dim")) = true := by
  exact ⟨rfl, rfl⟩

/-- C2 counterexample: the claim that no code cell writes files to disk,
downloads data, or saves a model fails on the corpus. -/
theorem c2_counterexample :
    ¬ (∀ c ∈ Corpus.corpus,
        c.fsWrites = [] ∧ c.downloads = [] ∧ c.modelSaves = []) := by
  decide

/-- C2 amended: every code cell operates on ephemeral in-memory data except
the listed eight cells, which download datasets or weights, write files, or
save a model; and those operations do create filesystem entries that outlive
the cell: fetch_housing_data writes housing.tgz and housing.csv, the Chapter
13 cells write data/file_0.txt to data/file_2.txt and data/sample.tfrecord,
and the Chapter 19 cells write my_mnist_model/0001 and
converted_model.tflite. -/
theorem c2_persistent_state_cells :
    (∀ c ∈ Corpus.corpus,
        (c.fsWrites ≠ [] ∨ c.downloads ≠ [] ∨ c.modelSaves ≠ []) →
        (c.notebook, c.idx) ∈ Corpus.persistentCells) ∧
      ∀ fs : List String,
        FS.fetch_housing_data true fs =
            Except.ok (FS.housingCsv :: FS.housingTgz :: fs) ∧
          FS.housingTgz ∈ (FS.housingCsv :: FS.housingTgz :: fs) ∧
          FS.housingCsv ∈ (FS.housingCsv :: FS.housingTgz :: fs) ∧
          "data/file_0.txt" ∈ FS.createTextFiles fs ∧
          "data/file_1.txt" ∈ FS.createTextFiles fs ∧
          "data/file_2.txt" ∈ FS.createTextFiles fs ∧
          "data/sample.tfrecord" ∈ FS.writeTfrecordFile fs ∧
          "my_mnist_model/0001" ∈ FS.saveMnistModel fs ∧
          "converted_model.tflite" ∈ FS.writeTfliteModel fs := by
  constructor
  · decide
  · intro fs
    have hc : FS.createTextFiles fs =
        "data/file_2.txt" :: "data/file_1.txt" :: "data/file_0.txt" ::
          "data" :: fs := rfl
    refine ⟨rfl, ?_, ?_, ?_, ?_, ?_, ?_, ?_, ?_⟩ <;>
      simp [hc, FS.writeTfrecordFile, FS.saveMnistModel, FS.writeTfliteModel]

/-- C2 witness: the Chapter 02 fetch cell is in the corpus, carries
persistent effects, and is covered by the amended enumeration. -/
theorem c2_witness :
    Corpus.ch02FetchCell ∈ Corpus.corpus ∧
      (Corpus.ch02FetchCell.notebook, Corpus.ch02FetchCell.idx) ∈
        Corpus.persistentCells :=
  ⟨by decide,
    c2_persistent_state_cells.1 Corpus.ch02FetchCell (by decide) (by decide)⟩

/-- C3 counterexample: the claim that no code cell requests multi-device
execution, parallel jobs, or other parallel scheduling fails on the corpus. -/
theorem c3_counterexample :
    ¬ (∀ c ∈ Corpus.corpus, c.parallelReqs = []) := by
  decide

/-- C3 amended: all code is synchronous in-process scripting except the
listed ten cells: the Chapter 07 ensemble cells request parallel jobs with
n_jobs=-1 (all processors), the Chapter 19 distribution cell requests
multi-device execution with tf.distribute.MirroredStrategy, and the tf.data
pipeline cells of Chapter 13, part_002 and part_003 request parallel calls
and prefetching. -/
theorem c3_parallel_request_cells :
    (∀ c ∈ Corpus.corpus, c.parallelReqs ≠ [] →
        (c.notebook, c.idx) ∈ Corpus.parallelCells) ∧
      Corpus.requestsAllCores Corpus.rf_clf := by
  exact ⟨by decide, rfl⟩

/-- C3 witness: the Chapter 07 random-forest cell is in the corpus, requests
parallelism, and is covered by the amended enumeration. -/
theorem c3_witness :
    Corpus.ch07RfCell ∈ Corpus.corpus ∧
      (Corpus.ch07RfCell.notebook, Corpus.ch07RfCell.idx) ∈
        Corpus.parallelCells :=
  ⟨by decide,
    c3_parallel_request_cells.1 Corpus.ch07RfCell (by decide) (by decide)⟩

/-- C4: no code cell of any notebook contains an exception handler, and in
the embedded Chapter 02 cell a failure propagates to the top level uncaught:
a network failure in fetch_housing_data surfaces as URLError from the whole
cell, a missing csv surfaces as FileNotFoundError from load_housing_data,
and the successful path completes. -/
theorem c4_no_exception_handlers :
    (∀ c ∈ Corpus.corpus, c.handlers = 0) ∧
      (∀ fs : List String,
        FS.fetch_housing_data false fs = Except.error "URLError") ∧
      FS.load_housing_data [] = Except.error "FileNotFoundError" ∧
      (∀ fs : List String, FS.fetchThenLoad false fs = Except.error "URLError") ∧
      FS.fetchThenLoad true [] = Except.ok () := by
  refine ⟨by decide, fun fs => rfl, ?_, fun fs => rfl, ?_⟩
  · rw [FS.load_housing_data, if_neg (by decide)]
  · show FS.load_housing_data (FS.housingCsv :: FS.housingTgz :: []) = Except.ok ()
    rw [FS.load_housing_data, if_pos (by decide)]

/-- C4 witness: the single Chapter 01 cell is in the corpus and contains no
handler. -/
theorem c4_witness :
    Corpus.cleanCell Corpus.nb01 0 ∈ Corpus.corpus ∧
      (Corpus.cleanCell Corpus.nb01 0).handlers = 0 :=
  ⟨by decide,
    c4_no_exception_handlers.1 (Corpus.cleanCell Corpus.nb01 0) (by decide)⟩
